import Mathlib

/-!
Verification development for the `trsecho` media-monitoring pipeline.

This file gives a shallow embedding, in Lean 4, of the relevance-scoring,
categorization, deduplication and enrichment core of the repository
(`src/categorizer.py`, `src/deduplicator.py`, `src/enricher.py`,
`src/models.py`), together with theorems settling the frozen claims about
that core.

Modelling conventions:
  * Python `str` is `String`; the substring operator `needle in hay` is
    `strIn`; `str.lower()` is `pyLower`, covering the ASCII and Swedish
    letters used by the code's keyword tables.
  * Python `float` scores are modelled as `Rat`.  Every constant the code
    uses (0.1, 0.3, 0.4, 0.7, 0.85, 1.5, 2.0) is written as the same
    rational; all comparisons performed by the code are at points where
    binary-float and rational comparison agree.
  * `datetime` instants are modelled as `Int` (seconds); `timedelta(days=d)`
    is `d * 86400`.  A naive (timezone-free) datetime is an article whose
    `tzAware` field is `false`; Python raises `TypeError` when ordering a
    naive datetime against an aware one, which is modelled by returning
    `Except.error`.  `naive.astimezone()` attaches the local zone without
    changing the instant, so it keeps `published_date` and sets `tzAware`.
  * `difflib.SequenceMatcher(None, a, b).ratio()` is an external, pure,
    deterministic library routine; it is passed in as an explicit function
    argument `ratio : String → String → Rat` and never inspected, exactly
    like the spec treats it ("exact algorithm is not prescribed beyond the
    threshold contract").
  * Python dicts keyed by strings are association lists in first-insertion
    order (`dictSet` overwrites in place, appends new keys at the end),
    which is Python's observable dict semantics.
-/

/-- `isPrefixChars n h` is true when the char list `n` is a prefix of `h`. -/
def isPrefixChars : List Char → List Char → Bool
  | [], _ => true
  | _ :: _, [] => false
  | a :: as, b :: bs => a == b && isPrefixChars as bs

/-- `inChars n h`: the char list `n` occurs contiguously inside `h`
(Python's `n in h` on strings, at the character level). -/
def inChars (needle : List Char) : List Char → Bool
  | [] => isPrefixChars needle []
  | c :: rest => isPrefixChars needle (c :: rest) || inChars needle rest

/-- Python's substring test `needle in hay`. -/
def strIn (needle hay : String) : Bool :=
  inChars needle.data hay.data

/-- Lower-casing of one character: ASCII `A`–`Z` plus the Swedish capitals
used by this code base.  Model of what Python `str.lower` does on the
alphabet occurring in the repository's strings. -/
def pyLowerChar (c : Char) : Char :=
  if c.val ≥ 65 && c.val ≤ 90 then Char.ofNat (c.toNat + 32)
  else if c = 'Å' then 'å'
  else if c = 'Ä' then 'ä'
  else if c = 'Ö' then 'ö'
  else if c = 'É' then 'é'
  else c

/-- Python `s.lower()`. -/
def pyLower (s : String) : String :=
  String.mk (s.data.map pyLowerChar)

/-- Python slicing `s[:n]` (first `n` characters). -/
def pySlice (s : String) (n : Nat) : String :=
  String.mk (s.data.take n)

/-- Python `min(a, b)` on numbers, written so that the elaborator and the
kernel can evaluate it on rational values (equal to `min`, see
`ratMin_eq`). -/
def ratMin (a b : Rat) : Rat := if a ≤ b then a else b

/-- Python `max(a, b)` on integers. -/
def intMax (a b : Int) : Int := if a ≤ b then b else a

/-- Addition on `Rat`, written via `mkRat` so that concrete values
evaluate (the core `Rat.add` is irreducible to the elaborator); equal to
`+` by `ratAdd_eq`. -/
def ratAdd (a b : Rat) : Rat := mkRat (a.num * b.den + b.num * a.den) (a.den * b.den)

/-- Multiplication on `Rat` via `mkRat`; equal to `*` by `ratMul_eq`. -/
def ratMul (a b : Rat) : Rat := mkRat (a.num * b.num) (a.den * b.den)

/-- Subtraction on `Rat` via `mkRat`; equal to `-` by `ratSub_eq`. -/
def ratSub (a b : Rat) : Rat := mkRat (a.num * b.den - b.num * a.den) (a.den * b.den)

/-- A natural number as a `Rat`, in evaluable form. -/
def natToRat (n : Nat) : Rat := mkRat (Int.ofNat n) 1

/-- The pipeline's shared `Article` record (`src/models.py`).  `domain` is a
`String` with `""` standing for both Python `None` and `""` (the code only
ever tests truthiness, which identifies the two).  `tzAware` records whether
`published_date` carries timezone information. -/
structure Article where
  title : String
  url : String
  source : String := ""
  published_date : Int := 0
  tzAware : Bool := true
  summary : String := ""
  content_type : String := "article"
  category : Option String := none
  relevance_score : Rat := 0
  body_text : String := ""
  organization : Option String := none
  domain : String := ""
  estimated_read_time : Int := 0
  found_via : Option String := none
deriving DecidableEq

/-- Category entry of the YAML config: `none` models a missing dict key. -/
structure CatCfg where
  name : Option String := none
  keywords : Option (List String) := none
deriving DecidableEq

/-- The parts of the loaded YAML configuration that the verified core reads.
`none` models a missing key, so each access site applies the Python
default via `Option.getD` (the dedup and categorize stages use different
defaults for `max_article_age_days`, exactly as the code does). -/
structure Config where
  categories : List CatCfg := []
  blocklistTitles : List String := []
  blocklistUrls : List String := []
  maxArticleAgeDays : Option Int := none
  minContentLength : Option Nat := none
  maxArticlesPerCategory : Option Nat := none
  dedupThreshold : Option Rat := none
deriving DecidableEq

-- Trust-based domain lists (src/categorizer.py lines 9-24)

def HIGH_TRUST_DOMAINS : List String :=
  ["ptk.se", "svenskscenkonst.se", "arbetsgivaralliansen.se",
   "teateralliansen.se", "dansalliansen.se", "musikalliansen.se",
   "trr.se", "omstella.se", "kulturradet.se", "konstnarsnamnden.se",
   "fremia.se", "scensverige.se", "musikerforbundet.se", "nodsverige.se",
   "nysta.nu", "famna.se", "famna.org", "trs.se"]

def MEDIUM_TRUST_DOMAINS : List String :=
  ["musikerforbundet.se", "scenochfilm.se", "regeringen.se"]

def LOW_TRUST_DOMAINS : List String :=
  ["tn.se", "arbetet.se", "kollega.se", "dagenssamhalle.se",
   "publikt.se", "svensktnaringsliv.se"]

-- RelevanceScorer keyword tables (src/categorizer.py lines 36-138)

def TRS_SECTORS : List String :=
  ["teater", "orkester", "opera", "balett", "dans", "musik", "scenkonst",
   "konserthus", "dramatisk", "scen", "föreställning", "repertoar",
   "symfoni", "kör", "dirigent", "musiker", "skådespelare", "dansare",
   "ideell", "idéburen", "civilsamhälle", "folkrörelse", "förening",
   "stiftelse", "folkhögskola", "trossamfund", "kyrka", "idrott",
   "riksidrottsförbund",
   "kultur", "konstnär", "konstnärlig", "kulturarbetare", "kultursektor",
   "teateralliansen", "dansalliansen", "musikalliansen",
   "arbetsgivaralliansen", "svensk scenkonst", "ptk", "fremia"]

def NON_TRS_SECTORS : List String :=
  ["fabrik", "tillverkning", "industri", "produktion", "verkstad",
   "livsmedel", "slakteri", "kycklingfabrik", "stål", "papper",
   "tåg", "lokförare", "sj ", "pendeltåg", "tunnelbana", "buss",
   "lastbil", "chaufför", "transport", "logistik", "flyg",
   "butik", "detaljhandel", "handel", "restaurang", "hotell",
   "besöksnäring", "krog",
   "kommun", "region", "landsting", "myndighet", "statlig",
   "grundskola", "gymnasium", "friskola", "lärare",
   "sjukhus", "vårdcentral", "regionvård", "läkare", "sjuksköterska",
   "lss-boende", "äldreboende",
   "bygge", "byggarbetsplats", "entreprenad", "anläggning",
   "iaspis", "bild och form", "bildkonst", "formkonst", "konsthantverk",
   "utställning"]

def NON_SWEDISH_INDICATORS : List String :=
  ["bulgarien", "grekland", "grekiska", "danmark", "norge", "finland",
   "tyskland", "frankrike", "italien", "spanien", "polen", "eu-budget",
   "europeiska kommissionen", "bryssel", "usa", "kinda", "japan"]

def WORK_ANGLE_REQUIRED_SOURCES : List String :=
  ["sverigesradio.se", "tv4.se", "svt.se", "dn.se", "svd.se",
   "expressen.se", "aftonbladet.se"]

def TRS_CORE_TOPICS : List String :=
  ["omställning", "omställningsstöd", "omställningsavtal",
   "uppsägning", "arbetsbrist", "varsel", "nedskärning",
   "karriärväxling", "karriäromställning",
   "kompetensutveckling", "kompetensstöd",
   "omställningsstudiestöd", "trygghetsråd",
   "kollektivavtal", "partssamverkan",
   "frilans", "tidsbegränsad anställning",
   "anställning", "arbetsmarknad", "arbetsmiljö", "lön"]

def WORK_ANGLE_KEYWORDS : List String :=
  ["anställ", "uppsäg", "varsel", "nedskärning", "sparkrav",
   "omställ", "kollektivavtal", "frilans", "löne", "personal",
   "jobb", "rekryter", "avsked", "pension", "budget", "arbetsmiljö",
   "fack", "trygghet", "villkor"]

def REVIEW_INDICATORS : List String :=
  ["recension", "recenserar", "betyg", "stjärnor",
   "premiär", "urpremiär", "nypremiär",
   "föreställning", "pjäs", "uppsättning", "regigrepp",
   "rollprestation", "scenografi", "manus",
   "konsert", "spelning", "turné", "album", "skiva", "låt",
   "gripande", "mäktig", "rörande", "underhållande",
   "publiksuccé", "succé", "sevärd", "magisk",
   "berättar om", "livshistoria", "karriär",
   "skådespelaren", "artisten", "musikern", "intervju med",
   "årets bästa", "årets teater", "teateråret", "musikåret",
   "jubileum", "firande", "hyllning"]

/-- The local keyword list inside `check_work_angle`
(src/categorizer.py lines 254-255). -/
def WORK_ANGLE_GATE_KEYWORDS : List String :=
  ["anställ", "arbets", "omställ", "kollektivavtal",
   "frilans", "uppsäg", "varsel", "löne", "fack", "trygghet"]

/-- The local `PERFORMANCE_TERMS` list inside `_is_review_or_entertainment`
(src/categorizer.py lines 212-215). -/
def PERFORMANCE_TERMS : List String :=
  ["föreställning", "pjäs", "uppsättning", "konsert",
   "spelning", "turné", "premiär", "repertoar"]

/-- The local performing-arts list inside `_is_review_or_entertainment`
(src/categorizer.py lines 222-225). -/
def SCENKONST_TERMS : List String :=
  ["teater", "opera", "balett", "orkester", "dans",
   "musik", "konsert", "scen", "dramatik"]

/-- The combined lowered text used by `calculate_relevance`
(src/categorizer.py line 149): title, summary, and the first 500
characters of `body_text`, joined with single spaces. -/
def articleText (article : Article) : String :=
  pyLower (article.title ++ " " ++ article.summary ++ " " ++ pySlice article.body_text 500)

/-- The source string used by `calculate_relevance`
(src/categorizer.py line 150): lowered domain if truthy, else lowered
source if truthy, else `""`. -/
def articleSource (article : Article) : String :=
  if article.domain ≠ "" then pyLower article.domain
  else if article.source ≠ "" then pyLower article.source
  else ""

/-- `RelevanceScorer.check_geographic_relevance` (src/categorizer.py
lines 235-243).  The Python loop returns at the first matching indicator;
since the Sweden test does not depend on which indicator matched, this is
the first-match formulation below. -/
def check_geographic_relevance (text : String) : Bool :=
  match NON_SWEDISH_INDICATORS.find? (fun i => strIn i text) with
  | some _ => strIn "sverige" text || strIn "svensk" text
  | none => true

/-- `RelevanceScorer.check_work_angle` (src/categorizer.py lines 245-260). -/
def check_work_angle (source text : String) : Bool :=
  if WORK_ANGLE_REQUIRED_SOURCES.any (fun s => strIn s source) = false then true
  else WORK_ANGLE_GATE_KEYWORDS.any (fun kw => strIn kw text)

/-- `RelevanceScorer.get_source_modifier` (src/categorizer.py lines 262-279).
Each Python `for`/`if`/`return` loop returns at the first substring match,
i.e. exactly when `List.any` holds. -/
def get_source_modifier (domain : String) : Rat :=
  if HIGH_TRUST_DOMAINS.any (fun t => strIn t domain) then 2
  else if MEDIUM_TRUST_DOMAINS.any (fun t => strIn t domain) then mkRat 3 2
  else if LOW_TRUST_DOMAINS.any (fun t => strIn t domain) then mkRat 7 10
  else 1

/-- The negative-sector loop of `RelevanceScorer.check_sector_relevance`
(src/categorizer.py lines 287-292): walk the out-of-scope list; at a
matching term, return it unless some in-scope term also occurs (in which
case the loop keeps going and, the positive test being independent of the
loop variable, never returns). -/
def sectorNegLoop (text : String) : List String → Option String
  | [] => none
  | s :: rest =>
    if strIn s text then
      if TRS_SECTORS.any (fun p => strIn p text) then sectorNegLoop text rest
      else some s
    else sectorNegLoop text rest

/-- `RelevanceScorer.check_sector_relevance` (src/categorizer.py
lines 281-300). -/
def check_sector_relevance (text : String) : Rat × String :=
  match sectorNegLoop text NON_TRS_SECTORS with
  | some sector => (-1, sector)
  | none =>
    let ms := TRS_SECTORS.filter (fun s => strIn s text)
    if ms ≠ [] then
      (ratMul (mkRat 3 10) (natToRat (Nat.min ms.length 3)),
       "Sektor: " ++ String.intercalate ", " (ms.take 3))
    else (0, "")

/-- `RelevanceScorer.check_topic_relevance` (src/categorizer.py
lines 302-310). -/
def check_topic_relevance (text : String) : Rat × String :=
  let ms := TRS_CORE_TOPICS.filter (fun t => strIn t text)
  if ms ≠ [] then
    (ratMul (mkRat 2 5) (natToRat (Nat.min ms.length 3)),
     "Ämne: " ++ String.intercalate ", " (ms.take 3))
  else (0, "")

/-- `RelevanceScorer._is_review_or_entertainment` (src/categorizer.py
lines 199-233).  The argument is already lowered by the caller; the
function lowers again (a no-op), faithfully mirrored here. -/
def isReviewOrEntertainment (text : String) : Bool × String :=
  let text_lower := pyLower text
  if WORK_ANGLE_KEYWORDS.any (fun kw => strIn kw text_lower) then (false, "")
  else
    match PERFORMANCE_TERMS.find? (fun t => strIn t text_lower) with
    | some term => (true, "Recension/kulturartikel: " ++ term)
    | none =>
      if SCENKONST_TERMS.any (fun s => strIn s text_lower) then
        match REVIEW_INDICATORS.find? (fun i => strIn i text_lower) with
        | some indicator => (true, "Recension/kulturartikel: " ++ indicator)
        | none => (false, "")
      else (false, "")

/-- Steps 2-4 of `calculate_relevance` (src/categorizer.py lines 174-197):
accumulate sector and topic scores and reasons, apply the high-trust floor,
multiply by the source modifier and cap at 1. -/
def finishScore (source_modifier : Rat) (sector topic : Rat × String) : Rat × String :=
  let score := ratAdd sector.1 topic.1
  let reasons := (if sector.2 ≠ "" then [sector.2] else []) ++
                 (if topic.2 ≠ "" then [topic.2] else [])
  let withFloor :=
    if mkRat 3 2 < source_modifier ∧ score < mkRat 1 10 then
      (mkRat 1 10, reasons ++ ["Hög förtroendekälla/Low baseline"])
    else (score, reasons)
  (ratMin 1 (ratMul withFloor.1 source_modifier),
   if withFloor.2 ≠ [] then String.intercalate "; " withFloor.2 else "Ingen stark signal")

/-- `RelevanceScorer.calculate_relevance` (src/categorizer.py
lines 140-197).  The `hasattr(self, 'requires_work_angle')` test at
lines 161-162 is dead code (`RelevanceScorer` has no such attribute, and
the branch body is `pass`), so it is omitted.  The review gate runs only
when the source modifier is below 2.0. -/
def calculate_relevance (article : Article) : Rat × String :=
  let text := articleText article
  let source := articleSource article
  if check_geographic_relevance text = false then (0, "Irrelevant geografi (utlandet)")
  else if check_work_angle source text = false then
    (0, "Saknar arbetsmarknadsvinkel (generell källa)")
  else if get_source_modifier source < 2 ∧ (isReviewOrEntertainment text).1 = true then
    (0, (isReviewOrEntertainment text).2)
  else if (check_sector_relevance text).1 < 0 then
    (0, "Irrelevant sektor: " ++ (check_sector_relevance text).2)
  else
    finishScore (get_source_modifier source) (check_sector_relevance text) (check_topic_relevance text)

/-- `should_include` (src/categorizer.py lines 312-327).  The Python
function also receives the article and ignores it; that parameter is
dropped here. -/
def should_include (score : Rat) (source_domain : String) : Bool :=
  let domain := if source_domain ≠ "" then pyLower source_domain else ""
  if HIGH_TRUST_DOMAINS.any (fun t => strIn t domain) then decide (score ≥ mkRat 1 10)
  else if LOW_TRUST_DOMAINS.any (fun t => strIn t domain) then decide (score ≥ mkRat 1 2)
  else decide (score ≥ mkRat 3 10)

-- Categorizer pipeline (src/categorizer.py lines 330-438)

/-- `CONCEPT_CLUSTERS` (src/categorizer.py lines 330-344), in the source's
insertion order. -/
def CONCEPT_CLUSTERS : List (String × List String) :=
  [("Omställning",
    ["omställning", "uppsägning", "arbetsbrist", "varsel",
     "karriärväxling", "nytt jobb", "arbetslös", "arbetsförmedling",
     "trygghetsråd", "avgångsersättning", "studier", "yrkesväxling"]),
   ("Scenkonst",
    ["scenkonst", "teater", "dans", "musik", "orkester", "opera", "balett",
     "skådespelare", "musiker", "dansare", "konstnär", "kultur",
     "föreställning", "scen", "repertoar", "koreograf", "regissör"]),
   ("Civilsamhälle",
    ["civilsamhälle", "ideell", "förening", "stiftelse", "ngo",
     "folkrörelse", "idéburen", "frivillig", "non-profit"]),
   ("Arbetsmarknad",
    ["arbetsmarknad", "sysselsättning", "rekrytering", "kompetens",
     "bristyrke", "arbetskraft", "lönebildning", "avtalsrörelse"])]

/-- A Python dict from category names to article lists, as an association
list in first-insertion order. -/
abbrev CatDict := List (String × List Article)

/-- Membership test `k in d` on the dict. -/
def dictHasKey (d : CatDict) (k : String) : Bool :=
  d.any (fun p => p.1 == k)

/-- Python `d[k] = v`: overwrite in place when the key exists, else append
(dicts preserve first-insertion order). -/
def dictSet (d : CatDict) (k : String) (v : List Article) : CatDict :=
  if dictHasKey d k then d.map (fun p => if p.1 == k then (p.1, v) else p)
  else d ++ [(k, v)]

/-- Python `d[k].append(a)` for a key known to be present. -/
def dictPush (d : CatDict) (k : String) (a : Article) : CatDict :=
  d.map (fun p => if p.1 == k then (p.1, p.2 ++ [a]) else p)

/-- The dict comprehension `{cat['name']: [] for cat in categories_config}`
(src/categorizer.py line 352), raising `KeyError` at the first entry with
no `name` key. -/
def initCategories : List CatCfg → CatDict → Except String CatDict
  | [], d => .ok d
  | c :: rest, d =>
    match c.name with
    | none => .error "KeyError: name"
    | some n => initCategories rest (dictSet d n [])

/-- The category-assignment block (src/categorizer.py lines 401-430,
up to the choice of the category name): first configured category whose
lowered keywords match the lowered title+summary; else the first concept
cluster whose terms match AND whose name is a key of the output dict
(clusters whose name is not a key are skipped and the loop continues);
else the catch-all `"Övrigt"`.  A config entry reached here always has a
`name` (line 352 already raised otherwise), hence the `getD`. -/
def chooseCategoryName (cats : List CatCfg) (d : CatDict) (text_lower : String) : String :=
  match cats.find? (fun c =>
      ((c.keywords.getD []).map pyLower).any (fun k => strIn k text_lower)) with
  | some c => c.name.getD ""
  | none =>
    match CONCEPT_CLUSTERS.find? (fun cl =>
        cl.2.any (fun t => strIn t text_lower) && dictHasKey d cl.1) with
    | some cl => cl.1
    | none => "Övrigt"

/-- Appending the article to its assigned category
(src/categorizer.py lines 422-430): if the assigned name is a key, append
there, else append to `"Övrigt"` (always a key). -/
def appendArticle (d : CatDict) (k : String) (a : Article) : CatDict :=
  if dictHasKey d k then dictPush d k a else dictPush d "Övrigt" a

/-- The body of the per-article loop of `categorize_articles`
(src/categorizer.py lines 359-430): blocklist, age (after normalising a
naive date in place), content-density and relevance filters, then category
assignment.  Dropped articles leave the dict unchanged. -/
def processArticle (config : Config) (now : Int) (d : CatDict) (article : Article) : CatDict :=
  let blocked_titles := config.blocklistTitles.map pyLower
  let blocked_urls := config.blocklistUrls.map pyLower
  if blocked_titles.any (fun t => strIn t (pyLower article.title)) then d
  else if blocked_urls.any (fun t => strIn t (pyLower article.url)) then d
  else
    let max_age_days := config.maxArticleAgeDays.getD 2
    let cutoff_date := now - max_age_days * 86400
    let article := if article.tzAware then article else { article with tzAware := true }
    if article.published_date < cutoff_date then d
    else
      let min_content_length := config.minContentLength.getD 300
      if article.body_text ≠ "" ∧ article.body_text.data.length < min_content_length then d
      else
        let score := (calculate_relevance article).1
        let domain := if article.domain ≠ "" then article.domain else ""
        if should_include score domain = false then d
        else
          let article := { article with relevance_score := score }
          let text_lower := pyLower (article.title ++ " " ++ article.summary)
          let assigned := chooseCategoryName config.categories d text_lower
          appendArticle d assigned { article with category := some assigned }

/-- Stable descending insertion by `published_date`: place `a` after every
element whose date is `≥` its own.  Folding this over the list from the
left is extensionally Python's stable `list.sort(key=published_date,
reverse=True)`. -/
def insertDesc (a : Article) : List Article → List Article
  | [] => [a]
  | b :: rest => if b.published_date < a.published_date then a :: b :: rest
                 else b :: insertDesc a rest

/-- Python `articles.sort(key=lambda x: x.published_date, reverse=True)`. -/
def pySortDescByDate (l : List Article) : List Article :=
  l.foldl (fun acc a => insertDesc a acc) []

/-- `categorize_articles` (src/categorizer.py lines 346-438).  `now` is the
value of `datetime.now().astimezone()` during the run. -/
def categorize_articles (articles : List Article) (config : Config) (now : Int) :
    Except String CatDict :=
  match initCategories config.categories [] with
  | .error e => .error e
  | .ok d0 =>
    let d0 := dictSet d0 "Övrigt" []
    let d := articles.foldl (processArticle config now) d0
    let limit := config.maxArticlesPerCategory.getD 10
    .ok (d.map (fun p => (p.1, (pySortDescByDate p.2).take limit)))

-- Deduplicator (src/deduplicator.py)

/-- `is_similar` (src/deduplicator.py lines 9-11), with the external
`SequenceMatcher.ratio` passed in as `ratio`. -/
def is_similar (ratio : String → String → Rat) (a b : String) (threshold : Rat) : Bool :=
  decide (ratio a b > threshold)

/-- The ad/sponsored blocklist local to `deduplicate_articles`
(src/deduplicator.py line 30). -/
def AD_BLOCKLIST : List String := ["annons", "sponsrad", "reklam"]

/-- Ordering `article.published_date < cutoff` where `cutoff` is
timezone-aware: Python raises `TypeError` when the article's datetime is
naive. -/
def dateIsOld (article : Article) (cutoff : Int) : Except String Bool :=
  if article.tzAware then .ok (decide (article.published_date < cutoff))
  else .error "TypeError: cannot compare offset-naive and offset-aware datetimes"

/-- The age/ad pre-filter loop of `deduplicate_articles`
(src/deduplicator.py lines 29-42). -/
def dedupPrefilter (cutoff : Int) : List Article → Except String (List Article)
  | [] => .ok []
  | a :: rest =>
    match dateIsOld a cutoff with
    | .error e => .error e
    | .ok isOld =>
      if isOld then dedupPrefilter cutoff rest
      else if AD_BLOCKLIST.any (fun t => strIn t (pyLower (a.title ++ " " ++ a.summary))) then
        dedupPrefilter cutoff rest
      else
        match dedupPrefilter cutoff rest with
        | .error e => .error e
        | .ok r => .ok (a :: r)

/-- The sequential dedup scan (src/deduplicator.py lines 47-65):
drop on an already-seen URL, else on title similarity to any previously
kept title, else keep and record URL and title. -/
def dedupScan (ratio : String → String → Rat) (threshold : Rat) :
    List Article → List String → List String → List Article
  | [], _, _ => []
  | a :: rest, seenUrls, seenTitles =>
    if seenUrls.contains a.url then dedupScan ratio threshold rest seenUrls seenTitles
    else if seenTitles.any (fun t => is_similar ratio (pyLower a.title) (pyLower t) threshold) then
      dedupScan ratio threshold rest seenUrls seenTitles
    else a :: dedupScan ratio threshold rest (a.url :: seenUrls) (seenTitles ++ [a.title])

/-- `deduplicate_articles` (src/deduplicator.py lines 13-68).  `now` is the
value of `datetime.now().astimezone()` during the run; `ratio` is
`SequenceMatcher(None, ·, ·).ratio()`. -/
def deduplicate_articles (ratio : String → String → Rat) (articles : List Article)
    (config : Config) (now : Int) : Except String (List Article) :=
  let threshold := config.dedupThreshold.getD (mkRat 17 20)
  let max_age_days := config.maxArticleAgeDays.getD 7
  let cutoff := now - max_age_days * 86400
  match dedupPrefilter cutoff articles with
  | .error e => .error e
  | .ok filtered => .ok (dedupScan ratio threshold filtered [] [])

-- Enricher (src/enricher.py)

/-- Drop the part of a char list up to and including the first occurrence
of `needle`; `none` when `needle` does not occur. -/
def afterFirst (needle : List Char) : List Char → Option (List Char)
  | [] => if isPrefixChars needle [] then some [] else none
  | c :: rest =>
    if isPrefixChars needle (c :: rest) then some ((c :: rest).drop needle.length)
    else afterFirst needle rest

/-- `urllib.parse.urlparse(url).netloc` for the absolute `scheme://...`
URLs this pipeline handles: the text between the first `"//"` and the next
`/`, `?` or `#` (empty when the URL has no `"//"`). -/
def urlNetloc (url : String) : String :=
  match afterFirst "//".data url.data with
  | some rest => String.mk (rest.takeWhile (fun c => c ≠ '/' && c ≠ '?' && c ≠ '#'))
  | none => ""

/-- Python `s.replace(needle, repl)` (all occurrences) for a non-empty
`needle`, on char lists.  Structural recursion on a fuel argument (one
unit per output step; the scanned list shrinks by at least one character
per step, so any fuel above the list length is enough), which keeps the
function evaluable by the kernel. -/
def replaceAllChars (needle repl : List Char) : Nat → List Char → List Char
  | 0, _ => []
  | _ + 1, [] => []
  | fuel + 1, c :: rest =>
    if isPrefixChars needle (c :: rest) ∧ needle.length > 0 then
      repl ++ replaceAllChars needle repl fuel (rest.drop (needle.length - 1))
    else c :: replaceAllChars needle repl fuel rest

/-- Python `s.replace(needle, repl)` for a non-empty `needle`. -/
def pyReplace (s needle repl : String) : String :=
  String.mk (replaceAllChars needle.data repl.data (s.data.length + 1) s.data)

/-- Python `s.split(sep)` for a single-character separator, at the
character-list level: split at every occurrence, keeping empty pieces. -/
def splitOnChar (sep : Char) : List Char → List (List Char)
  | [] => [[]]
  | c :: rest =>
    match splitOnChar sep rest with
    | [] => [[]]
    | w :: ws => if c = sep then [] :: w :: ws else (c :: w) :: ws

/-- Python `s.split(sep)` for a one-character separator. -/
def pySplit (s : String) (sep : Char) : List String :=
  (splitOnChar sep s.data).map String.mk

/-- The manual organization alias table (src/enricher.py lines 48-60). -/
def ORG_MAPPINGS : List (String × String) :=
  [("dn", "Dagens Nyheter"), ("svd", "Svenska Dagbladet"),
   ("sverigesradio", "Sveriges Radio"), ("svt", "SVT"),
   ("dagenssamhalle", "Dagens Samhälle"), ("arbetsvarlden", "Arbetsvärlden"),
   ("lag-avtal", "Lag & Avtal"), ("arbetet", "Arbetet"),
   ("kollega", "Kollega"), ("publikt", "Publikt"),
   ("akademikern", "Akademikern")]

/-- Upper-casing of one character: inverse of `pyLowerChar` on the same
alphabet. -/
def pyUpperChar (c : Char) : Char :=
  if c.val ≥ 97 && c.val ≤ 122 then Char.ofNat (c.toNat - 32)
  else if c = 'å' then 'Å'
  else if c = 'ä' then 'Ä'
  else if c = 'ö' then 'Ö'
  else if c = 'é' then 'É'
  else c

/-- Python `s.capitalize()`: first character upper-cased, the rest lowered. -/
def pyCapitalize (s : String) : String :=
  match s.data with
  | [] => ""
  | c :: rest => String.mk (pyUpperChar c :: rest.map pyLowerChar)

/-- Python `s.endswith(suffix)`. -/
def strEndsWith (hay suffix : String) : Bool :=
  isPrefixChars suffix.data.reverse hay.data.reverse

/-- Python whitespace `str.split()` word count: number of maximal runs of
non-whitespace characters. -/
def pyWordCount (s : String) : Nat :=
  ((s.data.splitOnP (fun c => c = ' ' || c = '\t' || c = '\n' || c = '\r')).filter
    (fun w => w ≠ [])).length

/-- Python `round` (banker's rounding, half to even) on an exact rational.
The only quotients the enricher rounds are `word_count / 200`, where the
binary-float quotient rounds identically. -/
def pyRound (q : Rat) : Int :=
  let f := q.floor
  let r := ratSub q (mkRat f 1)
  if r < mkRat 1 2 then f
  else if mkRat 1 2 < r then f + 1
  else if f % 2 = 0 then f else f + 1

/-- `enrich_article` (src/enricher.py lines 7-78).  The `try/except` around
`urlparse` never fires for string input, so domain extraction is total;
`replace('www.', '')` removes every occurrence, not only a leading one,
exactly as Python's `str.replace` does. -/
def enrich_article (article : Article) : Article :=
  let url_lower := pyLower article.url
  let content_type :=
    if strEndsWith url_lower ".pdf" then "pdf"
    else if ["youtube.com", "vimeo.com", "play."].any (fun x => strIn x url_lower) then "video"
    else if strIn "press" url_lower || strIn "pressmeddelande" url_lower then "press_release"
    else if strIn "podd" url_lower || strIn "podcast" url_lower then "podcast"
    else "article"
  let domain := pyReplace (urlNetloc article.url) "www." ""
  let article := { article with content_type := content_type, domain := domain }
  let article :=
    if article.source ≠ "" ∧ strIn "." article.source = false then
      { article with organization := some article.source }
    else if article.domain ≠ "" then
      let parts := pySplit article.domain '.'
      if parts.length ≥ 2 then
        let name := parts.getD (parts.length - 2) ""
        let base := pyCapitalize name
        { article with organization := some ((ORG_MAPPINGS.lookup name).getD base) }
      else { article with organization := some article.domain }
    else { article with organization := some "Okänd" }
  let word_count := if article.body_text ≠ "" then pyWordCount article.body_text else 0
  let word_count :=
    if word_count = 0 ∧ article.summary ≠ "" then pyWordCount article.summary else word_count
  { article with estimated_read_time := intMax 1 (pyRound (mkRat (Int.ofNat word_count) 200)) }

-- Helper lemmas about the scorer

/-- If some out-of-scope term occurs in `text` and no in-scope term does,
the negative-sector loop returns a matched term. -/
theorem sectorNegLoop_isSome (text : String) (L : List String)
    (hneg : L.any (fun s => strIn s text) = true)
    (hpos : TRS_SECTORS.any (fun p => strIn p text) = false) :
    ∃ s, sectorNegLoop text L = some s := by
  induction L with
  | nil => simp at hneg
  | cons a rest ih =>
    by_cases ha : strIn a text = true
    · exact ⟨a, by simp [sectorNegLoop, ha, hpos]⟩
    · obtain ⟨s, hs⟩ := ih (by simpa [ha] using hneg)
      exact ⟨s, by simp [sectorNegLoop, ha, hs]⟩

/-- Article used in the counterexample to the literal reading of C1: the
out-of-scope term sits after character 500 of the body, so the scorer
never sees it. -/
def c1cexArticle : Article :=
  { title := "anställning", url := "u", domain := "example.com",
    body_text := String.mk (List.replicate 500 'z') ++ " fabrik" }

/-- The full combined lowered text of `c1cexArticle` (title, summary and
the whole body, no truncation). -/
def c1cexFullText : String :=
  pyLower (c1cexArticle.title ++ " " ++ c1cexArticle.summary ++ " " ++ c1cexArticle.body_text)

set_option maxRecDepth 100000 in
/-- C1 counterexample: an article whose full combined text (title, summary,
body) contains the out-of-scope term "fabrik" and no in-scope term, yet
`calculate_relevance` returns 2/5, not 0.0 — the code only scans the first
500 characters of the body, so the claim as stated (over the whole body)
fails. -/
theorem C1_counterexample :
    NON_TRS_SECTORS.any (fun s => strIn s c1cexFullText) = true ∧
    TRS_SECTORS.any (fun p => strIn p c1cexFullText) = false ∧
    (calculate_relevance c1cexArticle).1 = mkRat 2 5 := by
  refine ⟨by decide, by decide, by decide⟩

/-- C1 (amended): for every article whose combined text as actually scanned
by the code — title, summary and the FIRST 500 CHARACTERS of the body —
contains at least one `NON_TRS_SECTORS` term and no `TRS_SECTORS` term,
`calculate_relevance` returns a score of exactly 0.0 (whichever gate or
the sector check produces the early return). -/
theorem C1_theorem (article : Article)
    (hneg : NON_TRS_SECTORS.any (fun s => strIn s (articleText article)) = true)
    (hpos : TRS_SECTORS.any (fun p => strIn p (articleText article)) = false) :
    (calculate_relevance article).1 = 0 := by
  obtain ⟨s0, hs0⟩ := sectorNegLoop_isSome (articleText article) NON_TRS_SECTORS hneg hpos
  have hsec : (check_sector_relevance (articleText article)).1 = -1 := by
    unfold check_sector_relevance
    rw [hs0]
  simp only [calculate_relevance]
  split_ifs with h1 h2 h3 h4
  · rfl
  · rfl
  · rfl
  · rfl
  · exact absurd (by rw [hsec]; norm_num) h4

/-- Article witnessing that the hypotheses of the amended C1 are satisfiable. -/
def c1wArticle : Article := { title := "fabrik", url := "u" }

/-- Witness for the amended C1 at a concrete article. -/
theorem C1_witness :
    NON_TRS_SECTORS.any (fun s => strIn s (articleText c1wArticle)) = true ∧
    TRS_SECTORS.any (fun p => strIn p (articleText c1wArticle)) = false ∧
    (calculate_relevance c1wArticle).1 = 0 :=
  ⟨by decide, by decide, C1_theorem c1wArticle (by decide) (by decide)⟩

-- Bridges from the evaluable arithmetic to the ambient `Rat` operations

/-- `ratAdd` agrees with `+`. -/
theorem ratAdd_eq (a b : Rat) : ratAdd a b = a + b := by
  conv_rhs => rw [← Rat.num_divInt_den a, ← Rat.num_divInt_den b]
  rw [Rat.divInt_add_divInt _ _ (Int.natCast_ne_zero.mpr a.den_nz)
    (Int.natCast_ne_zero.mpr b.den_nz)]
  rw [ratAdd, Rat.mkRat_eq_divInt, Nat.cast_mul]

/-- `ratMul` agrees with `*`. -/
theorem ratMul_eq (a b : Rat) : ratMul a b = a * b := by
  conv_rhs => rw [← Rat.num_divInt_den a, ← Rat.num_divInt_den b]
  rw [Rat.divInt_mul_divInt _ _ (Int.natCast_ne_zero.mpr a.den_nz)
    (Int.natCast_ne_zero.mpr b.den_nz)]
  rw [ratMul, Rat.mkRat_eq_divInt, Nat.cast_mul]

/-- `ratMin` agrees with `min`. -/
theorem ratMin_eq (a b : Rat) : ratMin a b = min a b := by
  unfold ratMin
  by_cases h : a ≤ b <;> simp [h, min_def]

/-- `mkRat` as an ordinary division. -/
theorem mkRat_eq_div (n : Int) (d : Nat) : mkRat n d = (n : Rat) / (d : Rat) := by
  rw [Rat.mkRat_eq_divInt, Rat.divInt_eq_div]
  norm_cast

/-- `natToRat` is the natural-number cast. -/
theorem natToRat_eq (n : Nat) : natToRat n = (n : Rat) := by
  rw [natToRat, mkRat_eq_div]
  norm_num

/-- When the negative-sector loop finds nothing, the sector score is
nonnegative. -/
theorem check_sector_nonneg (text : String)
    (h : sectorNegLoop text NON_TRS_SECTORS = none) :
    0 ≤ (check_sector_relevance text).1 := by
  unfold check_sector_relevance
  rw [h]
  dsimp only
  split_ifs with hm
  · rw [ratMul_eq, natToRat_eq, mkRat_eq_div]
    positivity
  · exact le_refl 0

/-- The topic score is always nonnegative. -/
theorem check_topic_nonneg (text : String) : 0 ≤ (check_topic_relevance text).1 := by
  unfold check_topic_relevance
  dsimp only
  split_ifs with hm
  · rw [ratMul_eq, natToRat_eq, mkRat_eq_div]
    positivity
  · exact le_refl 0

/-- For a source modifier of 2.0 and nonnegative stage scores, the finishing
step yields at least 0.1: the floor pushes any weaker running score up to
0.1 before the multiplication, and `min 1 ·` cannot drop below 0.1. -/
theorem finishScore_floor (sector topic : Rat × String)
    (hs : 0 ≤ sector.1) (ht : 0 ≤ topic.1) :
    mkRat 1 10 ≤ (finishScore 2 sector topic).1 := by
  have h110 : mkRat 1 10 = (1 : Rat)/10 := by rw [mkRat_eq_div]; norm_num
  have h32 : mkRat 3 2 = (3 : Rat)/2 := by rw [mkRat_eq_div]; norm_num
  have hscore : 0 ≤ ratAdd sector.1 topic.1 := by
    rw [ratAdd_eq]; exact add_nonneg hs ht
  unfold finishScore
  dsimp only
  rw [apply_ite (Prod.fst : Rat × List String → Rat)]
  dsimp only
  split_ifs with hcond
  · rw [ratMin_eq, ratMul_eq, h110, le_min_iff]
    constructor <;> norm_num
  · rw [h32, h110] at hcond
    have hge : (1 : Rat)/10 ≤ ratAdd sector.1 topic.1 := by
      by_contra hlt
      push_neg at hlt
      exact hcond ⟨by norm_num, hlt⟩
    rw [ratMin_eq, ratMul_eq, h110, le_min_iff]
    refine ⟨by norm_num, ?_⟩
    nlinarith [hge]

/-- C2: for every article whose domain (or source fallback) matches the
high-trust list — trust modifier 2.0 — and for which the geography,
work-angle and out-of-scope-sector gates do not return early (the review
gate is structurally skipped at modifier 2.0), the returned relevance
score is at least 0.1. -/
theorem C2_theorem (article : Article)
    (htrust : HIGH_TRUST_DOMAINS.any (fun t => strIn t (articleSource article)) = true)
    (hgeo : check_geographic_relevance (articleText article) = true)
    (hwork : check_work_angle (articleSource article) (articleText article) = true)
    (hreview : get_source_modifier (articleSource article) < 2 →
      (isReviewOrEntertainment (articleText article)).1 = false)
    (hsector : sectorNegLoop (articleText article) NON_TRS_SECTORS = none) :
    mkRat 1 10 ≤ (calculate_relevance article).1 := by
  have hmod : get_source_modifier (articleSource article) = 2 := by
    unfold get_source_modifier
    rw [htrust]
    rfl
  have hs := check_sector_nonneg (articleText article) hsector
  have ht := check_topic_nonneg (articleText article)
  simp only [calculate_relevance]
  rw [hgeo, hwork, hmod]
  simp only [Bool.true_eq_false, if_false, lt_self_iff_false, false_and, if_neg (not_lt.mpr hs),
    not_false_eq_true]
  exact finishScore_floor _ _ hs ht

/-- High-trust article witnessing the satisfiability of C2's hypotheses. -/
def c2wArticle : Article := { title := "hej", url := "u", domain := "trs.se" }

/-- Witness for C2 at a concrete high-trust article. -/
theorem C2_witness :
    HIGH_TRUST_DOMAINS.any (fun t => strIn t (articleSource c2wArticle)) = true ∧
    mkRat 1 10 ≤ (calculate_relevance c2wArticle).1 :=
  ⟨by decide, C2_theorem c2wArticle (by decide) (by decide) (by decide) (by decide) (by decide)⟩

/-- General-news article whose text contains the review-gate keyword
"jobb" but none of the ten work-angle gate substrings. -/
def c10wArticle : Article := { title := "nytt jobb", url := "u", domain := "tv4.se" }

/-- C10: for a general-news source, the work-angle gate accepts exactly
when one of the ten substrings of `WORK_ANGLE_GATE_KEYWORDS` occurs; that
list is exactly the ten substrings named in the claim and is strictly
shorter than `WORK_ANGLE_KEYWORDS` (which, e.g., recognises "jobb" while
the gate does not); and on a concrete tv4.se article containing "jobb"
but none of the ten, `calculate_relevance` returns 0.0 with the
work-angle rejection reason. -/
theorem C10_theorem (source text : String)
    (hgen : WORK_ANGLE_REQUIRED_SOURCES.any (fun s => strIn s source) = true) :
    (check_work_angle source text = true ↔
      WORK_ANGLE_GATE_KEYWORDS.any (fun kw => strIn kw text) = true) ∧
    WORK_ANGLE_GATE_KEYWORDS =
      ["anställ", "arbets", "omställ", "kollektivavtal", "frilans",
       "uppsäg", "varsel", "löne", "fack", "trygghet"] ∧
    WORK_ANGLE_GATE_KEYWORDS.length < WORK_ANGLE_KEYWORDS.length ∧
    ("jobb" ∈ WORK_ANGLE_KEYWORDS ∧ "jobb" ∉ WORK_ANGLE_GATE_KEYWORDS) ∧
    strIn "jobb" (articleText c10wArticle) = true ∧
    WORK_ANGLE_GATE_KEYWORDS.any (fun kw => strIn kw (articleText c10wArticle)) = false ∧
    calculate_relevance c10wArticle = (0, "Saknar arbetsmarknadsvinkel (generell källa)") := by
  refine ⟨?_, by decide, by decide, by decide, by decide, by decide, by decide⟩
  unfold check_work_angle
  rw [hgen]
  simp

/-- Witness for C10 at the concrete tv4.se article. -/
theorem C10_witness :
    WORK_ANGLE_REQUIRED_SOURCES.any (fun s => strIn s (articleSource c10wArticle)) = true ∧
    (check_work_angle (articleSource c10wArticle) (articleText c10wArticle) = true ↔
      WORK_ANGLE_GATE_KEYWORDS.any (fun kw => strIn kw (articleText c10wArticle)) = true) :=
  ⟨by decide, (C10_theorem (articleSource c10wArticle) (articleText c10wArticle) (by decide)).1⟩

/-- C9: enriching any article with url `https://www.dn.se/some-article`
and an empty or URL-like (dot-containing) `source` sets `domain` to
`dn.se` (host with `www.` stripped) and `organization` to
`Dagens Nyheter` via the manual alias table applied to the second-level
label. -/
theorem C9_theorem (article : Article)
    (hurl : article.url = "https://www.dn.se/some-article")
    (hsource : article.source = "" ∨ strIn "." article.source = true) :
    (enrich_article article).domain = "dn.se" ∧
    (enrich_article article).organization = some "Dagens Nyheter" := by
  have hnet : pyReplace (urlNetloc "https://www.dn.se/some-article") "www." "" = "dn.se" := by
    decide
  have hcond : ¬(article.source ≠ "" ∧ strIn "." article.source = false) := by
    rcases hsource with hs | hs
    · simp [hs]
    · simp [hs]
  unfold enrich_article
  dsimp only
  rw [hurl, hnet, if_neg hcond]
  exact ⟨rfl, rfl⟩

/-- Article witnessing C9 concretely. -/
def c9wArticle : Article := { title := "t", url := "https://www.dn.se/some-article" }

/-- Witness for C9 at a concrete article. -/
theorem C9_witness :
    c9wArticle.url = "https://www.dn.se/some-article" ∧ c9wArticle.source = "" ∧
    (enrich_article c9wArticle).domain = "dn.se" ∧
    (enrich_article c9wArticle).organization = some "Dagens Nyheter" :=
  ⟨rfl, rfl, C9_theorem c9wArticle rfl (Or.inl rfl)⟩

-- Deduplicator lemmas

/-- The property an article must satisfy to survive the dedup pre-filter:
timezone-aware date, not older than the cutoff, no advertising marker in
the lowered title+summary. -/
def keepCond (cutoff : Int) (a : Article) : Prop :=
  a.tzAware = true ∧ ¬(a.published_date < cutoff) ∧
  AD_BLOCKLIST.any (fun t => strIn t (pyLower (a.title ++ " " ++ a.summary))) = false

instance (cutoff : Int) (a : Article) : Decidable (keepCond cutoff a) := by
  unfold keepCond
  infer_instance

/-- Every article returned by the pre-filter satisfies the keep condition. -/
theorem dedupPrefilter_mem (cutoff : Int) :
    ∀ l f, dedupPrefilter cutoff l = .ok f → ∀ a ∈ f, keepCond cutoff a := by
  intro l
  induction l with
  | nil =>
    intro f h a ha
    simp only [dedupPrefilter] at h
    cases h
    simp at ha
  | cons b rest ih =>
    intro f h a ha
    by_cases htz : b.tzAware = true
    · have hd : dateIsOld b cutoff = .ok (decide (b.published_date < cutoff)) := by
        unfold dateIsOld
        rw [if_pos htz]
      rw [dedupPrefilter, hd] at h
      dsimp only at h
      split_ifs at h with h1 h2
      · exact ih f h a ha
      · exact ih f h a ha
      · cases hrec : dedupPrefilter cutoff rest with
        | error e => rw [hrec] at h; exact absurd h (by simp)
        | ok r =>
          rw [hrec] at h
          cases h
          rcases List.mem_cons.mp ha with rfl | ha'
          · exact ⟨htz, by simpa using h1, by simpa using h2⟩
          · exact ih r hrec a ha'
    · have hd : dateIsOld b cutoff =
          .error "TypeError: cannot compare offset-naive and offset-aware datetimes" := by
        unfold dateIsOld
        rw [if_neg htz]
      rw [dedupPrefilter, hd] at h
      exact absurd h (by simp)

/-- The pre-filter is the identity on lists all of whose articles satisfy
the keep condition. -/
theorem dedupPrefilter_self (cutoff : Int) :
    ∀ l, (∀ a ∈ l, keepCond cutoff a) → dedupPrefilter cutoff l = .ok l := by
  intro l
  induction l with
  | nil => intro _; rfl
  | cons b rest ih =>
    intro hall
    obtain ⟨htz, hold, had⟩ := hall b (List.mem_cons_self _ _)
    have hd : dateIsOld b cutoff = .ok false := by
      unfold dateIsOld
      rw [if_pos htz]
      simp [hold]
    rw [dedupPrefilter, hd]
    dsimp only
    rw [if_neg (by simp), if_neg (by simp [had]),
      ih (fun a ha => hall a (List.mem_cons_of_mem _ ha))]

/-- The dedup scan only returns articles of its input. -/
theorem dedupScan_mem (ratio : String → String → Rat) (th : Rat) :
    ∀ l u t a, a ∈ dedupScan ratio th l u t → a ∈ l := by
  intro l
  induction l with
  | nil => intro u t a ha; simp [dedupScan] at ha
  | cons b rest ih =>
    intro u t a ha
    rw [dedupScan] at ha
    split_ifs at ha with h1 h2
    · exact List.mem_cons_of_mem _ (ih _ _ _ ha)
    · exact List.mem_cons_of_mem _ (ih _ _ _ ha)
    · rcases List.mem_cons.mp ha with rfl | ha'
      · exact List.mem_cons_self _ _
      · exact List.mem_cons_of_mem _ (ih _ _ _ ha')

/-- The dedup scan is idempotent from any accumulator state. -/
theorem dedupScan_idem (ratio : String → String → Rat) (th : Rat) :
    ∀ l u t, dedupScan ratio th (dedupScan ratio th l u t) u t = dedupScan ratio th l u t := by
  intro l
  induction l with
  | nil => intro u t; rfl
  | cons b rest ih =>
    intro u t
    rw [dedupScan]
    split_ifs with h1 h2
    · exact ih u t
    · exact ih u t
    · rw [dedupScan, if_neg h1, if_neg h2]
      exact congrArg _ (ih _ _)

/-- Articles returned by the scan have URLs outside the seen set, and
pairwise distinct URLs. -/
theorem dedupScan_urls (ratio : String → String → Rat) (th : Rat) :
    ∀ l u t, (∀ a ∈ dedupScan ratio th l u t, u.contains a.url = false) ∧
      (dedupScan ratio th l u t).Pairwise (fun a b => a.url ≠ b.url) := by
  intro l
  induction l with
  | nil => intro u t; exact ⟨by simp [dedupScan], by simp [dedupScan]⟩
  | cons b rest ih =>
    intro u t
    rw [dedupScan]
    split_ifs with h1 h2
    · exact ih u t
    · exact ih u t
    · constructor
      · intro a ha
        rcases List.mem_cons.mp ha with rfl | ha'
        · simpa using h1
        · have h3 := (ih (b.url :: u) (t ++ [b.title])).1 a ha'
          simp only [List.contains_cons, Bool.or_eq_false_iff] at h3
          exact h3.2
      · refine List.pairwise_cons.mpr ⟨?_, (ih (b.url :: u) (t ++ [b.title])).2⟩
        intro a ha
        have h3 := (ih (b.url :: u) (t ++ [b.title])).1 a ha
        simp only [List.contains_cons, Bool.or_eq_false_iff, beq_eq_false_iff_ne] at h3
        exact fun he => h3.1 he.symm

/-- A list with pairwise distinct URLs holds at most one article with any
given URL. -/
theorem countP_url_le_one (u : String) :
    ∀ l : List Article, l.Pairwise (fun a b => a.url ≠ b.url) →
      l.countP (fun a => a.url == u) ≤ 1 := by
  intro l
  induction l with
  | nil => intro _; simp
  | cons b rest ih =>
    intro hp
    obtain ⟨hb, hrest⟩ := List.pairwise_cons.mp hp
    rw [List.countP_cons]
    by_cases hbu : (b.url == u) = true
    · have hbu' : b.url = u := by simpa using hbu
      have h0 : rest.countP (fun a => a.url == u) = 0 := by
        rw [List.countP_eq_zero]
        intro a ha
        simp only [beq_iff_eq]
        exact fun he => hb a ha (hbu'.trans he.symm)
      rw [h0, hbu]
      simp
    · rw [if_neg hbu]
      simpa using ih hrest

/-- C4: deduplication is idempotent — with the clock held fixed, running
`deduplicate_articles` on its own successful output returns that output
unchanged. -/
theorem C4_theorem (ratio : String → String → Rat) (articles : List Article)
    (config : Config) (now : Int) (out : List Article)
    (h : deduplicate_articles ratio articles config now = .ok out) :
    deduplicate_articles ratio out config now = .ok out := by
  simp only [deduplicate_articles] at h ⊢
  cases hf : dedupPrefilter (now - config.maxArticleAgeDays.getD 7 * 86400) articles with
  | error e => rw [hf] at h; exact absurd h (by simp)
  | ok f =>
    rw [hf] at h
    cases h
    have hmem : ∀ a ∈ dedupScan ratio (config.dedupThreshold.getD (mkRat 17 20)) f [] [],
        keepCond (now - config.maxArticleAgeDays.getD 7 * 86400) a :=
      fun a ha =>
        dedupPrefilter_mem _ articles f hf a
          (dedupScan_mem ratio (config.dedupThreshold.getD (mkRat 17 20)) f [] [] a ha)
    rw [dedupPrefilter_self _ _ hmem]
    dsimp only
    rw [dedupScan_idem]

/-- Similarity oracle used by concrete dedup witnesses: never similar. -/
def ratioZero : String → String → Rat := fun _ _ => 0

/-- First witness article for C4/C5: shares its URL with the second. -/
def dup1Article : Article := { title := "a", url := "u" }

/-- Second witness article for C4/C5: same URL, different title. -/
def dup2Article : Article := { title := "b", url := "u" }

/-- Witness for C4: a concrete run whose output passes through unchanged. -/
theorem C4_witness :
    deduplicate_articles ratioZero [dup1Article, dup2Article] {} 0 = .ok [dup1Article] ∧
    deduplicate_articles ratioZero [dup1Article] {} 0 = .ok [dup1Article] :=
  ⟨rfl, C4_theorem ratioZero [dup1Article, dup2Article] {} 0 [dup1Article] rfl⟩

/-- C5: when the input holds two distinct occurrences of the same URL,
both surviving the age and advertising pre-filters, the dedup output
holds at most one article with that URL (indeed all output URLs are
pairwise distinct), whatever the title-similarity oracle says. -/
theorem C5_theorem (ratio : String → String → Rat) (articles : List Article)
    (config : Config) (now : Int) (u : String) (i j : Nat)
    (hi : i < articles.length) (hj : j < articles.length) (hij : i ≠ j)
    (hu1 : (articles.get ⟨i, hi⟩).url = u) (hu2 : (articles.get ⟨j, hj⟩).url = u)
    (hk1 : keepCond (now - config.maxArticleAgeDays.getD 7 * 86400) (articles.get ⟨i, hi⟩))
    (hk2 : keepCond (now - config.maxArticleAgeDays.getD 7 * 86400) (articles.get ⟨j, hj⟩))
    (out : List Article)
    (hout : deduplicate_articles ratio articles config now = .ok out) :
    out.countP (fun a => a.url == u) ≤ 1 := by
  simp only [deduplicate_articles] at hout
  cases hf : dedupPrefilter (now - config.maxArticleAgeDays.getD 7 * 86400) articles with
  | error e => rw [hf] at hout; exact absurd hout (by simp)
  | ok f =>
    rw [hf] at hout
    cases hout
    exact countP_url_le_one u _
      (dedupScan_urls ratio (config.dedupThreshold.getD (mkRat 17 20)) f [] []).2

/-- Witness for C5 at the concrete same-URL pair. -/
theorem C5_witness :
    dup1Article.url = "u" ∧ dup2Article.url = "u" ∧
    (deduplicate_articles ratioZero [dup1Article, dup2Article] {} 0 =
      .ok [dup1Article]) ∧
    ([dup1Article].countP (fun a => a.url == "u") ≤ 1) :=
  ⟨rfl, rfl, rfl,
    C5_theorem ratioZero [dup1Article, dup2Article] {} 0 "u" 0 1
      (by decide) (by decide) (by decide) rfl rfl (by decide) (by decide)
      [dup1Article] rfl⟩

/-- Article with a timezone-naive `published_date`, the failing input for
C6. -/
def c6naiveArticle : Article := { title := "x", url := "u", tzAware := false }

/-- C6 (code bug): on an article with a naive `published_date`,
`deduplicate_articles` raises (`TypeError` comparing a naive datetime with
the aware cutoff) instead of returning normally — while
`categorize_articles`, which normalises naive dates before comparing,
returns normally on the very same article. -/
theorem C6_theorem :
    c6naiveArticle.tzAware = false ∧
    deduplicate_articles ratioZero [c6naiveArticle] {} 0 =
      .error "TypeError: cannot compare offset-naive and offset-aware datetimes" ∧
    categorize_articles [c6naiveArticle] {} 0 = .ok [("Övrigt", [])] :=
  ⟨rfl, rfl, rfl⟩

-- Categorizer lemmas

/-- Strings: the truthiness guard around a value is the identity. -/
theorem if_ne_empty_id (s : String) : (if s ≠ "" then s else "") = s := by
  by_cases h : s = "" <;> simp [h]

/-- The truthiness guard around lowering is plain lowering. -/
theorem if_ne_empty_lower (s : String) : (if s ≠ "" then pyLower s else "") = pyLower s := by
  by_cases h : s = "" <;> simp [h, pyLower]

/-- Every article stored in the dict passed `should_include` with its own
stored score and domain. -/
def dictScored (d : CatDict) : Prop :=
  ∀ p ∈ d, ∀ a ∈ p.2, should_include a.relevance_score a.domain = true

/-- Membership after a dict write. -/
theorem mem_dictSet (d : CatDict) (k : String) (v : List Article)
    (p : String × List Article) (hp : p ∈ dictSet d k v) : p ∈ d ∨ p.2 = v := by
  unfold dictSet at hp
  split_ifs at hp with h
  · rcases List.mem_map.mp hp with ⟨q, hq, hqe⟩
    by_cases hk : (q.1 == k) = true
    · rw [if_pos hk] at hqe
      right
      rw [← hqe]
    · rw [if_neg hk] at hqe
      left
      rw [← hqe]
      exact hq
  · rcases List.mem_append.mp hp with h1 | h2
    · left; exact h1
    · right
      simp only [List.mem_singleton] at h2
      rw [h2]

/-- Membership after a dict append. -/
theorem mem_dictPush (d : CatDict) (k : String) (a : Article)
    (p : String × List Article) (hp : p ∈ dictPush d k a) :
    ∃ q ∈ d, p.2 = q.2 ∨ p.2 = q.2 ++ [a] := by
  unfold dictPush at hp
  rcases List.mem_map.mp hp with ⟨q, hq, hqe⟩
  refine ⟨q, hq, ?_⟩
  by_cases hk : (q.1 == k) = true
  · rw [if_pos hk] at hqe
    right
    rw [← hqe]
  · rw [if_neg hk] at hqe
    left
    rw [← hqe]

/-- Appending an article that passed the filter preserves the invariant. -/
theorem dictScored_push (d : CatDict) (k : String) (a : Article)
    (hd : dictScored d) (ha : should_include a.relevance_score a.domain = true) :
    dictScored (dictPush d k a) := by
  intro p hp b hb
  rcases mem_dictPush d k a p hp with ⟨q, hq, he | he⟩
  · exact hd q hq b (he ▸ hb)
  · rw [he] at hb
    rcases List.mem_append.mp hb with h1 | h2
    · exact hd q hq b h1
    · simp only [List.mem_singleton] at h2
      rw [h2]
      exact ha

/-- `appendArticle` preserves the invariant. -/
theorem dictScored_append (d : CatDict) (k : String) (a : Article)
    (hd : dictScored d) (ha : should_include a.relevance_score a.domain = true) :
    dictScored (appendArticle d k a) := by
  unfold appendArticle
  split_ifs <;> exact dictScored_push _ _ _ hd ha

/-- Writing an empty list preserves the invariant. -/
theorem dictScored_set_nil (d : CatDict) (k : String) (hd : dictScored d) :
    dictScored (dictSet d k []) := by
  intro p hp b hb
  rcases mem_dictSet d k [] p hp with h1 | h2
  · exact hd p h1 b hb
  · rw [h2] at hb
    simp at hb

/-- The initial category dict satisfies the invariant. -/
theorem initCategories_scored :
    ∀ cats d0, dictScored d0 → ∀ d, initCategories cats d0 = .ok d → dictScored d := by
  intro cats
  induction cats with
  | nil =>
    intro d0 h0 d hd
    rw [initCategories] at hd
    cases hd
    exact h0
  | cons c rest ih =>
    intro d0 h0 d hd
    rw [initCategories] at hd
    cases hn : c.name with
    | none => rw [hn] at hd; exact absurd hd (by simp)
    | some n =>
      rw [hn] at hd
      exact ih _ (dictScored_set_nil _ _ h0) d hd

/-- The per-article pipeline step preserves the invariant: a dropped
article leaves the dict unchanged, and an appended article has just
passed `should_include` with the score stored into it. -/
theorem processArticle_scored (config : Config) (now : Int) (d : CatDict) (a : Article)
    (hd : dictScored d) : dictScored (processArticle config now d a) := by
  unfold processArticle
  dsimp only
  simp only [if_ne_empty_id]
  split_ifs <;>
    first
      | exact hd
      | (refine dictScored_append _ _ _ hd ?_
         dsimp only
         simp only [Bool.not_eq_false] at *
         assumption)

/-- Folding the pipeline step over any article list preserves the
invariant. -/
theorem foldl_processArticle_scored (config : Config) (now : Int) :
    ∀ (arts : List Article) (d : CatDict),
      dictScored d → dictScored (arts.foldl (processArticle config now) d) := by
  intro arts
  induction arts with
  | nil => intro d h; exact h
  | cons a rest ih =>
    intro d h
    exact ih _ (processArticle_scored config now d a h)

/-- Insertion keeps membership. -/
theorem mem_insertDesc (a b : Article) :
    ∀ l, b ∈ insertDesc a l → b = a ∨ b ∈ l := by
  intro l
  induction l with
  | nil =>
    intro h
    simp only [insertDesc, List.mem_singleton] at h
    left
    exact h
  | cons c rest ih =>
    intro h
    rw [insertDesc] at h
    split_ifs at h with hc
    · rcases List.mem_cons.mp h with rfl | h'
      · left; rfl
      · right; exact h'
    · rcases List.mem_cons.mp h with rfl | h'
      · right; exact List.mem_cons_self _ _
      · rcases ih h' with h'' | h''
        · left; exact h''
        · right; exact List.mem_cons_of_mem _ h''

/-- Sorting by insertion keeps membership (accumulator form). -/
theorem mem_foldl_insertDesc :
    ∀ (l acc : List Article) b,
      b ∈ l.foldl (fun acc a => insertDesc a acc) acc → b ∈ acc ∨ b ∈ l := by
  intro l
  induction l with
  | nil => intro acc b h; left; exact h
  | cons a rest ih =>
    intro acc b h
    rcases ih (insertDesc a acc) b h with h1 | h1
    · rcases mem_insertDesc a b acc h1 with rfl | h2
      · right; exact List.mem_cons_self _ _
      · left; exact h2
    · right; exact List.mem_cons_of_mem _ h1

/-- The Python sort keeps membership. -/
theorem mem_pySort (l : List Article) (b : Article) (h : b ∈ pySortDescByDate l) : b ∈ l := by
  rcases mem_foldl_insertDesc l [] b h with h1 | h1
  · simp at h1
  · exact h1

/-- C3: every article placed in any category of a successful
`categorize_articles` run carries a relevance score at or above the
threshold of its trust tier — 0.1 when its (lowered) domain matches the
high-trust list, 0.50 when it matches the low-trust list (and not the
high-trust one), 0.30 otherwise; these are exactly the conditions under
which `should_include` returns true. -/
theorem C3_theorem (articles : List Article) (config : Config) (now : Int) (m : CatDict)
    (h : categorize_articles articles config now = .ok m) :
    ∀ p ∈ m, ∀ a ∈ p.2,
      if HIGH_TRUST_DOMAINS.any (fun t => strIn t (pyLower a.domain)) = true then
        mkRat 1 10 ≤ a.relevance_score
      else if LOW_TRUST_DOMAINS.any (fun t => strIn t (pyLower a.domain)) = true then
        mkRat 1 2 ≤ a.relevance_score
      else mkRat 3 10 ≤ a.relevance_score := by
  unfold categorize_articles at h
  cases hinit : initCategories config.categories [] with
  | error e => rw [hinit] at h; exact absurd h (by simp)
  | ok d0 =>
    rw [hinit] at h
    dsimp only at h
    cases h
    intro p hp a ha
    rcases List.mem_map.mp hp with ⟨q, hq, hqe⟩
    have ha2 : a ∈ q.2 := by
      rw [← hqe] at ha
      exact mem_pySort _ _ (List.take_subset _ _ ha)
    have hscored : dictScored
        (articles.foldl (processArticle config now) (dictSet d0 "Övrigt" [])) :=
      foldl_processArticle_scored config now articles _
        (dictScored_set_nil _ _
          (initCategories_scored config.categories [] (by intro p hp; simp at hp) d0 hinit))
    have hsc := hscored q hq a ha2
    unfold should_include at hsc
    dsimp only at hsc
    rw [if_ne_empty_lower] at hsc
    split_ifs at hsc ⊢ with hH hL
    · exact of_decide_eq_true hsc
    · exact of_decide_eq_true hsc
    · exact of_decide_eq_true hsc

/-- Article for the C3 witness: high-trust domain, included at score 1/5. -/
def c3wArticle : Article := { title := "hej", url := "u", domain := "trs.se" }

/-- Expected categorized output for the C3 witness. -/
def c3wOut : CatDict :=
  [("Övrigt", [{ title := "hej", url := "u", domain := "trs.se",
                 relevance_score := mkRat 1 5, category := some "Övrigt" }])]

/-- Witness for C3 at a concrete run. -/
theorem C3_witness :
    categorize_articles [c3wArticle] {} 0 = .ok c3wOut ∧
    (∀ p ∈ c3wOut, ∀ a ∈ p.2,
      if HIGH_TRUST_DOMAINS.any (fun t => strIn t (pyLower a.domain)) = true then
        mkRat 1 10 ≤ a.relevance_score
      else if LOW_TRUST_DOMAINS.any (fun t => strIn t (pyLower a.domain)) = true then
        mkRat 1 2 ≤ a.relevance_score
      else mkRat 3 10 ≤ a.relevance_score) :=
  ⟨rfl, C3_theorem [c3wArticle] {} 0 c3wOut rfl⟩

/-- The dict comprehension raises `KeyError` whenever some category entry
has no name, regardless of where in the list it sits. -/
theorem initCategories_error :
    ∀ (cats : List CatCfg) (d : CatDict), (∃ c ∈ cats, c.name = none) →
      initCategories cats d = .error "KeyError: name" := by
  intro cats
  induction cats with
  | nil =>
    intro d h
    simp at h
  | cons c rest ih =>
    intro d h
    cases hn : c.name with
    | none => rw [initCategories, hn]
    | some n =>
      rw [initCategories, hn]
      apply ih
      rcases h with ⟨c', hc', hn'⟩
      rcases List.mem_cons.mp hc' with rfl | h'
      · rw [hn] at hn'
        cases hn'
      · exact ⟨c', h', hn'⟩

/-- Configuration whose single category entry has keywords but no name. -/
def c7errCfg : Config := { categories := [{ name := none, keywords := some [] }] }

/-- Configuration whose single category entry has a name but no keywords. -/
def c7kwCfg : Config := { categories := [{ name := some "A", keywords := none }] }

/-- Article included on the high-trust floor, used to show the
missing-keywords entry silently matches nothing. -/
def c7wArticle : Article := { title := "hej", url := "u", domain := "trs.se" }

/-- C7 counterexample: for a config whose category entry is missing its
`keywords`, `categorize_articles` does NOT fail fast — it returns
normally, treating the entry as matching nothing (the included article
falls through to `Övrigt` and category "A" stays empty). -/
theorem C7_counterexample :
    (∃ c ∈ c7kwCfg.categories, c.keywords = none) ∧
    categorize_articles [c7wArticle] c7kwCfg 0 =
      .ok [("A", []),
           ("Övrigt", [{ title := "hej", url := "u", domain := "trs.se",
                         relevance_score := mkRat 1 5, category := some "Övrigt" }])] :=
  ⟨by decide, rfl⟩

/-- C7 (amended): a config entry missing its `name` does fail fast — the
initial dict comprehension raises `KeyError: name` before any article is
processed; an entry missing only its `keywords` does not raise (see the
counterexample: `dict.get('keywords', [])` defaults to the empty list). -/
theorem C7_theorem (articles : List Article) (config : Config) (now : Int)
    (h : ∃ c ∈ config.categories, c.name = none) :
    categorize_articles articles config now = .error "KeyError: name" := by
  unfold categorize_articles
  rw [initCategories_error config.categories [] h]

/-- Witness for the amended C7 at the concrete missing-name config. -/
theorem C7_witness :
    (∃ c ∈ c7errCfg.categories, c.name = none) ∧
    categorize_articles [] c7errCfg 0 = .error "KeyError: name" :=
  ⟨by decide, C7_theorem [] c7errCfg 0 (by decide)⟩

/-- Configuration for the C8 counterexample: the only configured category
is `Scenkonst`, with keywords that match nothing. -/
def c8cexCfg : Config := { categories := [{ name := some "Scenkonst", keywords := some ["qqq"] }] }

/-- Article whose title matches both the Omställning and the Scenkonst
concept clusters. -/
def c8cexArticle : Article := { title := "omställning teater", url := "u", domain := "trs.se" }

/-- C8 counterexample: the first concept cluster whose terms match the
text is `Omställning`, and no configured keyword matches; yet
`categorize_articles` files the article under `Scenkonst` — the fallback
loop skips clusters whose name is not an output category instead of
assigning the first matching cluster. -/
theorem C8_counterexample :
    (CONCEPT_CLUSTERS.find? (fun cl => cl.2.any (fun t =>
        strIn t (pyLower (c8cexArticle.title ++ " " ++ c8cexArticle.summary))))).map Prod.fst =
      some "Omställning" ∧
    c8cexCfg.categories.find? (fun c => ((c.keywords.getD []).map pyLower).any
      (fun k => strIn k (pyLower (c8cexArticle.title ++ " " ++ c8cexArticle.summary)))) = none ∧
    categorize_articles [c8cexArticle] c8cexCfg 0 =
      .ok [("Scenkonst", [{ title := "omställning teater", url := "u", domain := "trs.se",
                            relevance_score := 1, category := some "Scenkonst" }]),
           ("Övrigt", [])] :=
  ⟨by decide, by decide, rfl⟩

/-- C8 (amended): for an included article matching no configured keyword,
the code assigns the first concept cluster — in the fixed order
Omställning, Scenkonst, Civilsamhälle, Arbetsmarknad — whose term list
matches the text AND whose name is one of the output categories; if no
such cluster exists, the catch-all `Övrigt`.  (`chooseCategoryName` is
the category-selection block of `categorize_articles`.) -/
theorem C8_theorem (cats : List CatCfg) (d : CatDict) (text_lower : String)
    (hnone : cats.find? (fun c =>
      ((c.keywords.getD []).map pyLower).any (fun k => strIn k text_lower)) = none) :
    CONCEPT_CLUSTERS.map Prod.fst = ["Omställning", "Scenkonst", "Civilsamhälle", "Arbetsmarknad"] ∧
    (∀ cl, CONCEPT_CLUSTERS.find? (fun c =>
        c.2.any (fun t => strIn t text_lower) && dictHasKey d c.1) = some cl →
      chooseCategoryName cats d text_lower = cl.1) ∧
    (CONCEPT_CLUSTERS.find? (fun c =>
        c.2.any (fun t => strIn t text_lower) && dictHasKey d c.1) = none →
      chooseCategoryName cats d text_lower = "Övrigt") := by
  refine ⟨by decide, ?_, ?_⟩
  · intro cl hcl
    unfold chooseCategoryName
    rw [hnone, hcl]
  · intro hcl
    unfold chooseCategoryName
    rw [hnone, hcl]

/-- Witness for the amended C8: with no configured categories and only
`Övrigt` as an output key, a text matching only absent clusters falls
through to `Övrigt`. -/
theorem C8_witness :
    ([] : List CatCfg).find? (fun c =>
      ((c.keywords.getD []).map pyLower).any (fun k => strIn k "teater")) = none ∧
    chooseCategoryName [] [("Övrigt", [])] "teater" = "Övrigt" :=
  ⟨rfl, (C8_theorem [] [("Övrigt", [])] "teater" rfl).2.2 (by decide)⟩
